import Mathlib

/-!
Verification of the manabase optimizer (`manabase.py`) against its
natural-language specification.  The Python data model and the CP-SAT
model built by `define_model` are shallowly embedded: pure helpers become
Lean functions, the constraint-programming model becomes a predicate
`Feasible` on integer assignments of the model's decision variables, and
exceptions become `Except` values.
-/

set_option maxHeartbeats 1000000

namespace Manabase

/-- The six mana colors W, U, B, R, G plus colorless C (manabase.py lines 16-50). -/
inductive Color
  | W | U | B | R | G | C
  deriving DecidableEq, Repr

/-- A color's one-letter code, as produced by `Color.__repr__` (manabase.py line 36-37). -/
def Color.code : Color → String
  | .W => "W"
  | .U => "U"
  | .B => "B"
  | .R => "R"
  | .G => "G"
  | .C => "C"

/-- `ColorCombination` is a `FrozenMultiset` of colors (manabase.py line 53). -/
abbrev ColorCombination := Multiset Color

/-- A pip of a mana cost: a specific color or a generic integer (`ManaCost.pips`, line 64). -/
inductive Pip
  | colored (c : Color)
  | generic (n : ℕ)
  deriving DecidableEq, Repr

/-- `ManaCost`: an ordered sequence of pips (manabase.py lines 61-91). -/
structure ManaCost where
  pips : List Pip
  deriving DecidableEq, Repr

/-- `ManaCost.mana_value`: 1 per colored pip plus the value of each generic pip (line 70-71). -/
def ManaCost.mana_value (m : ManaCost) : ℕ :=
  (m.pips.map (fun p => match p with | .colored _ => 1 | .generic n => n)).sum

/-- `ManaCost.colored_pips`: the subsequence of Color pips (lines 73-75). -/
def ManaCost.colored_pips (m : ManaCost) : List Color :=
  m.pips.filterMap (fun p => match p with | .colored c => some c | .generic _ => none)

/-- `ManaCost.__eq__` compares only `mana_value` (manabase.py lines 77-80). -/
def ManaCost.eq_py (a b : ManaCost) : Bool :=
  a.mana_value == b.mana_value

/-- `ManaCost.__lt__` compares only `mana_value` (manabase.py lines 82-85). -/
def ManaCost.lt_py (a b : ManaCost) : Bool :=
  decide (a.mana_value < b.mana_value)

/-- `Constraint`: a required mana cost plus the turn it must be castable on
(manabase.py lines 94-110).  Python defaults `turn` to `required.mana_value`
in `__post_init__`; every constraint here is built with its turn explicit. -/
structure Constraint where
  required : ManaCost
  turn : ℕ
  deriving DecidableEq, Repr

/-- `find_color_combinations` (manabase.py lines 834-836): the set of multisets of
all subsequences of the colored pips (`more_itertools.powerset`), minus the empty
one, deduplicated by the enclosing `frozenset`.  `Multiset.powerset` of the coerced
list is exactly the multiset of sub-multisets realized by subsequences. -/
def find_color_combinations (colored_pips : List Color) : Finset ColorCombination :=
  ((colored_pips : Multiset Color).powerset.toFinset).erase 0

/-- `Constraint.color_combinations` (manabase.py lines 99-100). -/
def Constraint.color_combinations (c : Constraint) : Finset ColorCombination :=
  find_color_combinations c.required.colored_pips

/-- The hard-coded Karsten/"Frank" source table (manabase.py lines 882-902),
keyed by (colored pip count, turn); values are the requirements for deck
sizes (60, 80, 99, 40) in that order. -/
def frank_table : List ((ℕ × ℕ) × (ℕ × ℕ × ℕ × ℕ)) :=
  [ ((1, 1), (14, 19, 19, 9))
  , ((1, 2), (13, 18, 19, 9))
  , ((2, 2), (21, 28, 30, 14))
  , ((1, 3), (12, 16, 18, 8))
  , ((2, 3), (18, 25, 28, 12))
  , ((3, 3), (23, 32, 36, 16))
  , ((1, 4), (10, 15, 16, 7))
  , ((2, 4), (16, 23, 26, 11))
  , ((3, 4), (21, 29, 33, 14))
  , ((4, 4), (24, 34, 39, 17))
  , ((1, 5), (9, 14, 15, 6))
  , ((2, 5), (15, 20, 23, 10))
  , ((3, 5), (19, 26, 30, 13))
  , ((4, 5), (22, 31, 36, 15))
  , ((1, 6), (9, 12, 14, 6))
  , ((2, 6), (13, 19, 22, 9))
  , ((3, 6), (16, 22, 26, 10))
  , ((2, 7), (12, 17, 20, 8))
  , ((3, 7), (16, 22, 26, 10)) ]

/-- `table.get((num_pips, turn), {}).get(deck_size)` flattened to a total function;
`0` encodes Python's falsy `req` (a missing entry), which makes `frank` raise
`UnsatisfiableConstraint` (manabase.py lines 907-909).  No real entry is 0. -/
def table_req (num_pips turn deck_size : ℕ) : ℕ :=
  match (frank_table.find? (fun e => e.1.1 == num_pips && e.1.2 == turn)).map Prod.snd with
  | none => 0
  | some v =>
    if deck_size = 60 then v.1
    else if deck_size = 80 then v.2.1
    else if deck_size = 99 then v.2.2.1
    else if deck_size = 40 then v.2.2.2
    else 0

/-- `frank` raises `UnsatisfiableConstraint` iff some color combination of the
constraint has no (nonzero) table entry (manabase.py lines 905-909). -/
def frankFails (c : Constraint) (deck_size : ℕ) : Prop :=
  ∃ cc ∈ c.color_combinations, table_req cc.card c.turn deck_size = 0

instance (c : Constraint) (d : ℕ) : Decidable (frankFails c d) := by
  unfold frankFails
  infer_instance

/-- `frank(constraint, deck_size)` (manabase.py lines 881-911): the map from each
color combination of the constraint to its required source count, represented by
its graph; `Except.error` is the `UnsatisfiableConstraint` exception. -/
def frank (c : Constraint) (deck_size : ℕ) : Except Unit (Finset (ColorCombination × ℕ)) :=
  if frankFails c deck_size then .error ()
  else .ok (c.color_combinations.image (fun cc => (cc, table_req cc.card c.turn deck_size)))

/-- `need_untapped(turn)` (manabase.py lines 865-870): the (1, turn) entry at deck
size 60, falling back to turn 6 when `frank` raises. -/
def need_untapped (turn : ℕ) : ℕ :=
  if table_req 1 turn 60 = 0 then table_req 1 6 60 else table_req 1 turn 60

/-- `num_lands(mana_value, turn)` (manabase.py lines 914-919): looks up
`frank` for a cost of `mana_value` white pips, whose combinations have every
pip count 1..mana_value, falling back to the (4, 4) entry when `frank` raises.
(For `mana_value = 0` Python would instead crash with an uncaught `KeyError`;
no caller reaches that case with a model.) -/
def num_lands_fails (mana_value turn : ℕ) : Prop :=
  ∃ k ∈ Finset.Icc 1 mana_value, table_req k turn 60 = 0

instance (mv t : ℕ) : Decidable (num_lands_fails mv t) := by
  unfold num_lands_fails
  infer_instance

/-- The body of `num_lands` (manabase.py lines 914-919). -/
def num_lands (mana_value turn : ℕ) : ℕ :=
  if num_lands_fails mana_value turn then table_req 4 4 60
  else table_req mana_value turn 60

/-- `num_lands_required(constraint)` (manabase.py lines 861-862). -/
def num_lands_required (c : Constraint) : ℕ :=
  num_lands c.required.mana_value c.turn

/-- `BasicLandType` (manabase.py lines 156-165): a basic land type name and the
color it produces. -/
structure BasicLandType where
  name : String
  produces : Color
  deriving DecidableEq, Repr

/-- `all_basic_land_types` (manabase.py lines 168-174). -/
def all_basic_land_types : List BasicLandType :=
  [⟨"Plains", .W⟩, ⟨"Island", .U⟩, ⟨"Swamp", .B⟩, ⟨"Mountain", .R⟩, ⟨"Forest", .G⟩]

/-- Python's `hay.startswith(pre)` (manabase.py line 195), over character
lists so that proofs can evaluate it. -/
def str_starts_with (s pre : String) : Bool :=
  pre.toList.isPrefixOf s.toList

/-- Python's `pat in hay` substring test, used at manabase.py line 225: some
suffix of `hay` starts with `pat`. -/
def str_contains (hay pat : String) : Bool :=
  hay.toList.tails.any (fun t => pat.toList.isPrefixOf t)

/-- The concrete `Land` subclasses of manabase.py: `Basic` (line 267), `Tapland`
(282), `Bicycle` (413, behaves as `Tapland`), `Check` (326), `Snarl` (331),
`Filter` (336), `Pain` (418), `RiverOfTearsLand` (436) and `Tango` (449). -/
inductive LandKind
  | basic | tapland | bicycle | check | snarl | filter | pain | river | tango
  deriving DecidableEq, Repr

/-- `Land` (manabase.py lines 212-252): the catalog data shared by all land
kinds.  `painful` is a field (line 216) that the `Pain` subclass defaults to
true and `Grand Coliseum` sets explicitly. -/
structure Land where
  name : String
  typeline : String
  produces : List Color
  kind : LandKind
  painful : Bool
  deriving DecidableEq, Repr

/-- `Card.is_basic` (manabase.py lines 193-195). -/
def Land.is_basic (l : Land) : Bool :=
  str_starts_with l.typeline "Basic Land"

/-- `Card.max` (manabase.py lines 188-191), with `MAX_DECK_SIZE = 100`. -/
def Land.max (l : Land) : ℕ :=
  if l.is_basic then 100 else 4

/-- `Land._calc_basic_land_types` (manabase.py lines 222-227): the basic land
types whose name occurs in the typeline. -/
def Land.basic_land_types (l : Land) : List BasicLandType :=
  all_basic_land_types.filter (fun b => str_contains l.typeline b.name)

/-- `Land.can_produce_any` (manabase.py lines 229-230). -/
def Land.can_produce_any (l : Land) (colors : Multiset Color) : Prop :=
  ∃ c ∈ colors, c ∈ l.produces

instance (l : Land) (colors : Multiset Color) : Decidable (l.can_produce_any colors) :=
  Multiset.decidableExistsMultiset

/-- `Land.has_basic_land_types` (manabase.py lines 232-236). -/
def Land.has_basic_land_types (l : Land) (needed : List BasicLandType) : Prop :=
  ∃ b ∈ needed, b ∈ l.basic_land_types

instance (l : Land) (needed : List BasicLandType) : Decidable (l.has_basic_land_types needed) := by
  unfold Land.has_basic_land_types
  infer_instance

/-- `BasicTypeCaring.basic_land_types_needed` (manabase.py lines 301-304): the
basic land types producing one of this land's colors. -/
def Land.basic_land_types_needed (l : Land) : List BasicLandType :=
  all_basic_land_types.filter (fun b => decide (b.produces ∈ l.produces))

/-- `find_colors` (manabase.py lines 839-844). -/
def find_colors (constraints : Finset Constraint) : Finset Color :=
  constraints.biUnion (fun c => c.required.colored_pips.toFinset)

/-- `viable_lands` (manabase.py lines 848-856): drop lands producing more than
two non-colorless colors when the deck has at most two colors; keep a land when
it produces at least two of the deck's colors, or produces one of them and is a
`Basic`. -/
def viable_lands (colors : Finset Color) (lands : Finset Land) : Finset Land :=
  lands.filter (fun l =>
    ¬(colors.card ≤ 2 ∧ 2 < (l.produces.filter (fun c => c != Color.C)).length) ∧
    (2 ≤ (colors.filter (fun c => c ∈ l.produces)).card ∨
      ((colors.filter (fun c => c ∈ l.produces)).Nonempty ∧ l.kind = .basic)))

/-- `possible_lands = viable_lands(find_colors(constraints), lands)`
(manabase.py line 687). -/
def possible_lands (C : Finset Constraint) (L : Finset Land) : Finset Land :=
  viable_lands (find_colors C) L

/-- A `Resource` is a color combination or the literal `"untapped"`
(manabase.py lines 115-117). -/
inductive Resource
  | res (cc : ColorCombination)
  | untapped
  deriving DecidableEq

/-- Modelled from the spec: `remembering_model.RememberingModel` is not under
src/.  Per spec §9 every decision variable is stored under a structured key and
`KeyCollision` is raised on conflicting reuse; `define_model` re-creates several
keys with identical bounds benignly (see the comment at manabase.py line 762 and
the two same-turn constraints exercised by `test_solve`), so a variable is
identified with its key.  The constructors mirror the key tuples passed to
`new_int_var`/`new_bool_var` throughout manabase.py:
`(land,)`, `("min_lands",)` … `("objective",)` (lines 125-132),
`(turn, resource, "required"/"sources")` (lines 139, 144),
`(self, turn, UNTAPPED)` and `(self, turn)` (lines 257, 260),
`(self, constraint)` and `(self, constraint, tag)` (lines 361-375),
`(turn, "can spend mana"/"max_mana_spend"/"mana_spend")` (lines 783-789),
`(color, "colored_sources")` (line 810, where `color` is in fact the bound
method `constraint.color_combinations`, one per constraint — see line 807)
and `("total_colored_sources",)` (line 813). -/
inductive Var
  | land (l : Land)
  | min_lands
  | mana_spend
  | max_mana_spend
  | total_lands
  | pain
  | objective
  | turnRes (turn : ℕ) (r : Resource) (role : String)
  | landTurn (l : Land) (turn : ℕ)
  | landTurnUntapped (l : Land) (turn : ℕ)
  | landCons (l : Land) (c : Constraint)
  | landConsTag (l : Land) (c : Constraint) (tag : String)
  | turnTag (turn : ℕ) (tag : String)
  | consColored (c : Constraint)
  | total_colored_sources
  deriving DecidableEq

/-- A CP-SAT boolean variable takes value 0 or 1. -/
def PyBool (x : ℤ) : Prop :=
  x = 0 ∨ x = 1

/-- `Conditional.untapped_if` (manabase.py lines 256-263): reifies
`enablers ≥ needed` into a boolean, and makes the returned `makes_mana_var`
(here `Var.landTurn l turn`, bounds 0..4) equal the land count when the boolean
holds and 0 otherwise. -/
def untapped_if (l : Land) (turn : ℕ) (needed : ℕ) (enablers : ℤ) (σ : Var → ℤ) : Prop :=
  PyBool (σ (.landTurnUntapped l turn)) ∧
  (σ (.landTurnUntapped l turn) = 1 → (needed : ℤ) ≤ enablers) ∧
  (σ (.landTurnUntapped l turn) = 0 → enablers < (needed : ℤ)) ∧
  (0 ≤ σ (.landTurn l turn) ∧ σ (.landTurn l turn) ≤ 4) ∧
  (σ (.landTurnUntapped l turn) = 1 → σ (.landTurn l turn) = σ (.land l)) ∧
  (σ (.landTurnUntapped l turn) = 0 → σ (.landTurn l turn) = 0)

/-- The enablers of a Check/Snarl (manabase.py line 309): total count of lands
sharing one of the needed basic land types. -/
def blt_enablers (P : Finset Land) (l : Land) (σ : Var → ℤ) : ℤ :=
  (P.filter (fun l' => l'.has_basic_land_types l.basic_land_types_needed)).sum
    (fun l' => σ (.land l'))

/-- The enablers of a Filter in `untapped_rules` (manabase.py lines 340-347):
lands sharing a producible color, excluding other filters on turns ≤ 2. -/
def filter_untapped_enablers (P : Finset Land) (l : Land) (turn : ℕ) (σ : Var → ℤ) : ℤ :=
  (P.filter (fun l' => ¬(turn ≤ 2 ∧ l'.kind = .filter) ∧ l.can_produce_any (↑l'.produces))).sum
    (fun l' => σ (.land l'))

/-- The enablers of a Tango (manabase.py line 454): basic lands. -/
def basic_enablers (P : Finset Land) (σ : Var → ℤ) : ℤ :=
  (P.filter (fun l' => l'.is_basic)).sum (fun l' => σ (.land l'))

/-- The constraints added by `untapped_rules` for each land kind
(manabase.py lines 268-269, 283-284, 306-313, 337-350, 421-422, 437-438,
450-455): only the conditional kinds (Check, Snarl, Filter, Tango) create
variables and constraints, via `untapped_if`. -/
def untapped_rules_prop (P : Finset Land) (l : Land) (turn : ℕ) (σ : Var → ℤ) : Prop :=
  (l.kind = .check → turn ≠ 1 →
    untapped_if l turn (need_untapped turn) (blt_enablers P l σ) σ) ∧
  (l.kind = .snarl →
    untapped_if l turn (num_lands turn turn) (blt_enablers P l σ) σ) ∧
  (l.kind = .filter → 2 ≤ turn →
    untapped_if l turn (need_untapped turn) (filter_untapped_enablers P l turn σ) σ) ∧
  (l.kind = .tango → 3 ≤ turn →
    untapped_if l turn (num_lands 2 (turn - 1)) (basic_enablers P σ) σ)

/-- The value of the expression returned by `untapped_rules` for each land kind
(same lines as `untapped_rules_prop`): the land count for Basic/Pain/River, 0
for taplands and bicycles, and the conditional `makes_mana_var` (or 0 on the
early-turn short-circuits) for Check/Snarl/Filter/Tango. -/
def untapped_val (l : Land) (turn : ℕ) (σ : Var → ℤ) : ℤ :=
  if l.kind = .basic ∨ l.kind = .pain ∨ l.kind = .river then σ (.land l)
  else if l.kind = .tapland ∨ l.kind = .bicycle then 0
  else if l.kind = .check then (if turn = 1 then 0 else σ (.landTurn l turn))
  else if l.kind = .snarl then σ (.landTurn l turn)
  else if l.kind = .filter then (if turn ≤ 1 then 0 else σ (.landTurn l turn))
  else (if turn ≤ 2 then 0 else σ (.landTurn l turn))

/-- A Filter's first produced color `m` (from `m, n, _ = self.produces`,
manabase.py line 353). -/
def filter_m (l : Land) : Color :=
  l.produces.getD 0 Color.C

/-- A Filter's second produced color `n` (manabase.py line 353). -/
def filter_n (l : Land) : Color :=
  l.produces.getD 1 Color.C

/-- Python key string `f"{m}{m}"` for the `mm_sources` variable (line 363). -/
def tag_mm (l : Land) : String :=
  (filter_m l).code ++ (filter_m l).code

/-- Python key string `f"{m}{n}"` for the `mn_sources` variable (line 365). -/
def tag_mn (l : Land) : String :=
  (filter_m l).code ++ (filter_n l).code

/-- Python key string `f"{n}{n}"` for the `nn_sources` variable (line 367). -/
def tag_nn (l : Land) : String :=
  (filter_n l).code ++ (filter_n l).code

/-- Python key string `f"{m} consumed"` (line 369). -/
def tag_m_consumed (l : Land) : String :=
  (filter_m l).code ++ " consumed"

/-- Python key string `f"{n} consumed"` (line 370). -/
def tag_n_consumed (l : Land) : String :=
  (filter_n l).code ++ " consumed"

/-- The enablers of a Filter's `active` boolean (manabase.py line 380):
non-Filter lands producing `m` or `n`. -/
def filter_active_enablers (P : Finset Land) (l : Land) (σ : Var → ℤ) : ℤ :=
  (P.filter (fun l' =>
    (filter_m l ∈ l'.produces ∨ filter_n l ∈ l'.produces) ∧ ¬l'.kind = .filter)).sum
    (fun l' => σ (.land l'))

/-- `impossible_turn_2_contribution` (manabase.py line 394). -/
def filter_impossible_t2 (l : Land) (c : Constraint) : Prop :=
  c.turn = 2 ∧ c.required.colored_pips.length = 2 ∧
    ∃ p ∈ c.required.colored_pips, ¬p ∈ l.produces

instance (l : Land) (c : Constraint) : Decidable (filter_impossible_t2 l c) := by
  unfold filter_impossible_t2
  infer_instance

/-- The eject condition of `Filter.add_to_model` (manabase.py line 358):
turn 1, or the constraint requests none of the filter's colors. -/
def filter_ejects (l : Land) (c : Constraint) : Prop :=
  c.turn = 1 ∨ ¬∃ cc ∈ c.color_combinations, l.can_produce_any cc

instance (l : Land) (c : Constraint) : Decidable (filter_ejects l c) := by
  unfold filter_ejects
  infer_instance

/-- The constraints `Filter.add_to_model` adds when it does not eject
(manabase.py lines 361-391): bounds of the auxiliary variables, the two
conservation equations, and the reified `active` boolean zeroing the
double-pip sources when false. -/
def filter_constraints (P : Finset Land) (l : Land) (c : Constraint) (σ : Var → ℤ) : Prop :=
  (0 ≤ σ (.landCons l c) ∧ σ (.landCons l c) ≤ (l.max : ℤ)) ∧
  σ (.landCons l c) ≤ σ (.land l) ∧
  (0 ≤ σ (.landConsTag l c (tag_mm l)) ∧ σ (.landConsTag l c (tag_mm l)) ≤ 2 * (l.max : ℤ)) ∧
  σ (.landConsTag l c (tag_mm l)) ≤ σ (.land l) * 2 ∧
  (0 ≤ σ (.landConsTag l c (tag_mn l)) ∧ σ (.landConsTag l c (tag_mn l)) ≤ 2 * (l.max : ℤ)) ∧
  σ (.landConsTag l c (tag_mn l)) ≤ σ (.land l) * 2 ∧
  (0 ≤ σ (.landConsTag l c (tag_nn l)) ∧ σ (.landConsTag l c (tag_nn l)) ≤ 2 * (l.max : ℤ)) ∧
  σ (.landConsTag l c (tag_nn l)) ≤ σ (.land l) * 2 ∧
  (0 ≤ σ (.landConsTag l c (tag_m_consumed l)) ∧
    σ (.landConsTag l c (tag_m_consumed l)) ≤ (l.max : ℤ)) ∧
  (0 ≤ σ (.landConsTag l c (tag_n_consumed l)) ∧
    σ (.landConsTag l c (tag_n_consumed l)) ≤ (l.max : ℤ)) ∧
  σ (.landConsTag l c (tag_m_consumed l)) ≤ σ (.land l) ∧
  σ (.landConsTag l c (tag_n_consumed l)) ≤ σ (.land l) ∧
  (σ (.landConsTag l c (tag_m_consumed l)) + σ (.landConsTag l c (tag_n_consumed l))) * 2 =
    σ (.landConsTag l c (tag_mm l)) + σ (.landConsTag l c (tag_mn l)) +
      σ (.landConsTag l c (tag_nn l)) ∧
  σ (.landConsTag l c (tag_mm l)) + σ (.landConsTag l c (tag_mn l)) +
      σ (.landConsTag l c (tag_nn l)) -
      σ (.landConsTag l c (tag_m_consumed l)) - σ (.landConsTag l c (tag_n_consumed l)) =
    σ (.land l) ∧
  PyBool (σ (.landConsTag l c "can make colored mana")) ∧
  (σ (.landConsTag l c "can make colored mana") = 1 →
    (need_untapped c.turn : ℤ) ≤ filter_active_enablers P l σ) ∧
  (σ (.landConsTag l c "can make colored mana") = 0 →
    filter_active_enablers P l σ < (need_untapped c.turn : ℤ)) ∧
  (σ (.landConsTag l c "can make colored mana") = 0 → σ (.landConsTag l c (tag_mm l)) = 0) ∧
  (σ (.landConsTag l c "can make colored mana") = 0 → σ (.landConsTag l c (tag_mn l)) = 0) ∧
  (σ (.landConsTag l c "can make colored mana") = 0 → σ (.landConsTag l c (tag_nn l)) = 0)

/-- The constraints `land.add_to_model(model, constraint)` adds as a side
effect (manabase.py line 721): only `Filter.add_to_model` adds any.  The
`l.produces.length = 3` conjunct reflects the `m, n, _ = self.produces`
destructuring at line 353, which would crash on any other shape. -/
def add_to_model_prop (P : Finset Land) (l : Land) (c : Constraint) (σ : Var → ℤ) : Prop :=
  l.kind = .filter →
    (l.produces.length = 3 ∧ (¬filter_ejects l c → filter_constraints P l c σ))

/-- The contribution expression of `land.add_to_model(model, constraint)` for
one color combination, evaluated under `σ`; `none` means the returned dict has
no entry for that combination.  Basic (manabase.py lines 271-278), Tapland and
Bicycle (286-293), Check/Snarl (315-322), Pain (424-431), RiverOfTears
(440-445), Tango (457-461), Filter (352-409). -/
def contribution (l : Land) (c : Constraint) (cc : ColorCombination) (σ : Var → ℤ) : Option ℤ :=
  if ¬cc ∈ c.color_combinations then none
  else if l.kind = .river then
    (if Color.U ∈ cc ∨ Color.B ∈ cc then some (σ (.land l)) else none)
  else if l.kind = .tapland ∨ l.kind = .bicycle then
    some (if 1 < c.turn ∧ l.can_produce_any cc then σ (.land l) else 0)
  else if l.kind = .tango then
    (if c.turn = 1 then some 0
     else some (if l.can_produce_any cc then σ (.land l) else 0))
  else if l.kind = .filter then
    (if filter_ejects l c then some (if Color.C ∈ cc then σ (.land l) else 0)
     else if 2 ≤ cc.count (filter_m l) then some (σ (.landConsTag l c (tag_mm l)))
     else if 1 ≤ cc.count (filter_m l) ∧ 1 ≤ cc.count (filter_n l) then
       some (σ (.landConsTag l c (tag_mn l)))
     else if 2 ≤ cc.count (filter_n l) then some (σ (.landConsTag l c (tag_nn l)))
     else if (cc = {filter_m l} ∨ cc = {filter_n l}) ∧ ¬filter_impossible_t2 l c then
       some (σ (.land l))
     else if Color.C ∈ cc then some (σ (.land l))
     else none)
  else
    some (if l.can_produce_any cc then σ (.land l) else 0)

/-- The per-combination sum of contributions accumulated at manabase.py
lines 721-723 and summed at lines 763-765; lands whose dict lacks the key
contribute nothing. -/
def contrib_sum (P : Finset Land) (c : Constraint) (cc : ColorCombination) (σ : Var → ℤ) : ℤ :=
  P.sum (fun l => (contribution l c cc σ).getD 0)

/-- The variable bounds declared in `Model.__init__` (manabase.py lines
123-132): per-land counts in `[0, land.max]` and the aggregate variables'
ranges, with `MAX_DECK_SIZE = 100`. -/
def init_bounds (P : Finset Land) (σ : Var → ℤ) : Prop :=
  (∀ l ∈ P, 0 ≤ σ (.land l) ∧ σ (.land l) ≤ (l.max : ℤ)) ∧
  (0 ≤ σ .min_lands ∧ σ .min_lands ≤ 100) ∧
  (0 ≤ σ .mana_spend ∧ σ .mana_spend ≤ 100) ∧
  (0 ≤ σ .max_mana_spend ∧ σ .max_mana_spend ≤ 100) ∧
  (0 ≤ σ .total_lands ∧ σ .total_lands ≤ 100) ∧
  (0 ≤ σ .pain ∧ σ .pain ≤ 100) ∧
  (-10000 ≤ σ .objective ∧ σ .objective ≤ 10000)

/-- The Frank-requirement constraints per constraint (manabase.py lines
725-730): `frank(constraint)` must not raise (there is no handler in
`define_model`), and for each combination the `required` variable equals the
table value while the `sources` variable is at least it.  Both variables are
created with bounds `[0, MAX_DECK_SIZE]` (lines 139, 144). -/
def frank_req_prop (c : Constraint) (σ : Var → ℤ) : Prop :=
  ¬frankFails c 60 ∧
  ∀ cc ∈ c.color_combinations,
    (0 ≤ σ (.turnRes c.turn (.res cc) "required") ∧
      σ (.turnRes c.turn (.res cc) "required") ≤ 100) ∧
    (0 ≤ σ (.turnRes c.turn (.res cc) "sources") ∧
      σ (.turnRes c.turn (.res cc) "sources") ≤ 100) ∧
    σ (.turnRes c.turn (.res cc) "required") = (table_req cc.card c.turn 60 : ℤ) ∧
    (table_req cc.card c.turn 60 : ℤ) ≤ σ (.turnRes c.turn (.res cc) "sources")

/-- `admissible_untapped` (manabase.py lines 734-739): all lands when the cost
has a generic pip, else the lands producing a color of some combination in
`frank(constraint)`'s keys. -/
def admissible_untapped (P : Finset Land) (c : Constraint) : Finset Land :=
  P.filter (fun l =>
    c.required.colored_pips.length < c.required.pips.length ∨
      ∃ cc ∈ c.color_combinations, l.can_produce_any cc)

/-- The total of `untapped_rules` over the admissible lands (manabase.py
lines 742-744). -/
def untapped_total (P : Finset Land) (c : Constraint) (σ : Var → ℤ) : ℤ :=
  (admissible_untapped P c).sum (fun l => untapped_val l c.turn σ)

/-- The untapped-sources block of `define_model` (manabase.py lines 710-752):
entered when the constraint is on-curve (`turn == required.mana_value`; the
`need_untapped` value is never 0, so `if required_untapped:` reduces to that
test).  The admissible lands' `untapped_rules` constraints are added, the
`(turn, UNTAPPED)` sources and required variables both equal the untapped
total, and the total must reach `need_untapped(turn)`. -/
def untapped_section_prop (P : Finset Land) (c : Constraint) (σ : Var → ℤ) : Prop :=
  c.turn = c.required.mana_value →
    ((∀ l ∈ admissible_untapped P c, untapped_rules_prop P l c.turn σ) ∧
     (0 ≤ σ (.turnRes c.turn .untapped "sources") ∧
       σ (.turnRes c.turn .untapped "sources") ≤ 100) ∧
     (0 ≤ σ (.turnRes c.turn .untapped "required") ∧
       σ (.turnRes c.turn .untapped "required") ≤ 100) ∧
     σ (.turnRes c.turn .untapped "sources") = untapped_total P c σ ∧
     σ (.turnRes c.turn .untapped "required") = untapped_total P c σ ∧
     (need_untapped c.turn : ℤ) ≤ untapped_total P c σ)

/-- The source-sum equations (manabase.py lines 758-765): for each constraint
and combination, the `sources` variable equals the sum of all lands'
contributions (added twice in Python, for `sources_of_this` and `color_vars`,
which are the same variable). -/
def sources_sum_prop (P : Finset Land) (c : Constraint) (σ : Var → ℤ) : Prop :=
  ∀ cc ∈ c.color_combinations,
    σ (.turnRes c.turn (.res cc) "sources") = contrib_sum P c cc σ

/-- The land-count aggregates (manabase.py lines 767-771): `min_lands` is the
maximum of `num_lands_required` over the (nonempty) constraints, `total_lands`
is the sum of the land counts, and `total_lands ≥ min_lands`. -/
def lands_prop (C : Finset Constraint) (P : Finset Land) (σ : Var → ℤ) : Prop :=
  σ .min_lands = ((C.sup num_lands_required : ℕ) : ℤ) ∧
  σ .total_lands = P.sum (fun l => σ (.land l)) ∧
  σ .min_lands ≤ σ .total_lands

/-- The mana-spend block (manabase.py lines 774-794): for each turn `t` from 1
to the maximum constraint turn, `untapped_rules` runs for every land, a boolean
records whether the untapped total reaches `num_lands(t, t)`, the per-turn
`max_mana_spend` variable equals `t`, the per-turn `mana_spend` variable (bounds
`[t-1, t]`) is `t` when the boolean holds and `t-1` otherwise, and the two
aggregates are the sums over turns. -/
def mana_spend_prop (C : Finset Constraint) (P : Finset Land) (σ : Var → ℤ) : Prop :=
  (∀ t ∈ Finset.Icc 1 (C.sup Constraint.turn),
    (∀ l ∈ P, untapped_rules_prop P l t σ) ∧
    PyBool (σ (.turnTag t "can spend mana")) ∧
    (σ (.turnTag t "can spend mana") = 1 →
      (num_lands t t : ℤ) ≤ P.sum (fun l => untapped_val l t σ)) ∧
    (σ (.turnTag t "can spend mana") = 0 →
      P.sum (fun l => untapped_val l t σ) < (num_lands t t : ℤ)) ∧
    σ (.turnTag t "max_mana_spend") = (t : ℤ) ∧
    ((t : ℤ) - 1 ≤ σ (.turnTag t "mana_spend") ∧ σ (.turnTag t "mana_spend") ≤ (t : ℤ)) ∧
    (σ (.turnTag t "can spend mana") = 1 → σ (.turnTag t "mana_spend") = (t : ℤ)) ∧
    (σ (.turnTag t "can spend mana") = 0 → σ (.turnTag t "mana_spend") = (t : ℤ) - 1)) ∧
  σ .max_mana_spend =
    (Finset.Icc 1 (C.sup Constraint.turn)).sum (fun t => σ (.turnTag t "max_mana_spend")) ∧
  σ .mana_spend =
    (Finset.Icc 1 (C.sup Constraint.turn)).sum (fun t => σ (.turnTag t "mana_spend"))

/-- The pain aggregate (manabase.py lines 799-800). -/
def pain_prop (P : Finset Land) (σ : Var → ℤ) : Prop :=
  σ .pain = (P.filter (fun l => l.painful)).sum (fun l => σ (.land l))

/-- The colored-sources block (manabase.py lines 803-814).  Due to the missing
call parentheses at line 807, `deck_colors` is a set of bound methods (one per
constraint), `color in land.produces` is always false, so every per-"color"
`colored_sources` variable and `total_colored_sources` are constrained to 0. -/
def colored_sources_prop (C : Finset Constraint) (σ : Var → ℤ) : Prop :=
  (∀ c ∈ C,
    (0 ≤ σ (.consColored c) ∧ σ (.consColored c) ≤ 100) ∧ σ (.consColored c) = 0) ∧
  (0 ≤ σ .total_colored_sources ∧ σ .total_colored_sources ≤ 100) ∧
  σ .total_colored_sources = 0

/-- The objective equation (manabase.py line 826). -/
def objective_prop (σ : Var → ℤ) : Prop :=
  σ .objective =
    1000 + σ .mana_spend * 6 - σ .total_lands * 10 - σ .pain * 2 + σ .total_colored_sources

/-- `Feasible C L σ`: the assignment `σ` satisfies every variable bound and
constraint of the CP-SAT model `define_model(C, L)` builds (manabase.py lines
686-829).  `C.Nonempty` reflects the `max(...)` calls at lines 768 and 777,
which fail on an empty constraint set; `¬frankFails` inside `frank_req_prop`
reflects the unguarded `frank` call at line 725.  Any solution returned by
`solve` satisfies all of these. -/
def Feasible (C : Finset Constraint) (L : Finset Land) (σ : Var → ℤ) : Prop :=
  C.Nonempty ∧
  init_bounds (possible_lands C L) σ ∧
  (∀ c ∈ C,
    (∀ l ∈ possible_lands C L, add_to_model_prop (possible_lands C L) l c σ) ∧
    frank_req_prop c σ ∧
    untapped_section_prop (possible_lands C L) c σ ∧
    sources_sum_prop (possible_lands C L) c σ) ∧
  lands_prop C (possible_lands C L) σ ∧
  mana_spend_prop C (possible_lands C L) σ ∧
  pain_prop (possible_lands C L) σ ∧
  colored_sources_prop C σ ∧
  objective_prop σ

/-- The semantics of `solve` (manabase.py lines 673-682) composed with CP-SAT
maximization (line 827): a returned solution is a feasible assignment that
maximizes the `objective` variable. -/
def IsSolution (C : Finset Constraint) (L : Finset Land) (σ : Var → ℤ) : Prop :=
  Feasible C L σ ∧ ∀ τ, Feasible C L τ → τ .objective ≤ σ .objective

/-- Some constraint of the set makes `frank` raise. -/
def any_frank_fails (C : Finset Constraint) : Prop :=
  ∃ c ∈ C, frankFails c 60

instance (C : Finset Constraint) : Decidable (any_frank_fails C) := by
  unfold any_frank_fails
  infer_instance

/-- The outcome of the unguarded `frank(constraint)` calls inside
`define_model` (manabase.py lines 725 and 737): there is no
`except UnsatisfiableConstraint` handler in `define_model` or `solve`, so the
exception propagates to the caller exactly when some constraint fails. -/
def define_model_frank (C : Finset Constraint) : Except Unit Unit :=
  if any_frank_fails C then .error () else .ok ()

instance (x : ℤ) : Decidable (PyBool x) := by
  unfold PyBool
  infer_instance

instance (l : Land) (t n : ℕ) (e : ℤ) (σ : Var → ℤ) : Decidable (untapped_if l t n e σ) := by
  unfold untapped_if
  infer_instance

instance (P : Finset Land) (l : Land) (t : ℕ) (σ : Var → ℤ) :
    Decidable (untapped_rules_prop P l t σ) := by
  unfold untapped_rules_prop
  infer_instance

instance (P : Finset Land) (l : Land) (c : Constraint) (σ : Var → ℤ) :
    Decidable (filter_constraints P l c σ) := by
  unfold filter_constraints
  infer_instance

instance (P : Finset Land) (l : Land) (c : Constraint) (σ : Var → ℤ) :
    Decidable (add_to_model_prop P l c σ) := by
  unfold add_to_model_prop
  infer_instance

instance (P : Finset Land) (σ : Var → ℤ) : Decidable (init_bounds P σ) := by
  unfold init_bounds
  infer_instance

instance (c : Constraint) (σ : Var → ℤ) : Decidable (frank_req_prop c σ) := by
  unfold frank_req_prop
  infer_instance

instance (P : Finset Land) (c : Constraint) (σ : Var → ℤ) :
    Decidable (untapped_section_prop P c σ) := by
  unfold untapped_section_prop
  infer_instance

instance (P : Finset Land) (c : Constraint) (σ : Var → ℤ) :
    Decidable (sources_sum_prop P c σ) := by
  unfold sources_sum_prop
  infer_instance

instance (C : Finset Constraint) (P : Finset Land) (σ : Var → ℤ) :
    Decidable (lands_prop C P σ) := by
  unfold lands_prop
  infer_instance

instance (C : Finset Constraint) (P : Finset Land) (σ : Var → ℤ) :
    Decidable (mana_spend_prop C P σ) := by
  unfold mana_spend_prop
  infer_instance

instance (P : Finset Land) (σ : Var → ℤ) : Decidable (pain_prop P σ) := by
  unfold pain_prop
  infer_instance

instance (C : Finset Constraint) (σ : Var → ℤ) : Decidable (colored_sources_prop C σ) := by
  unfold colored_sources_prop
  infer_instance

instance (σ : Var → ℤ) : Decidable (objective_prop σ) := by
  unfold objective_prop
  infer_instance

instance (C : Finset Constraint) (L : Finset Land) (σ : Var → ℤ) :
    Decidable (Feasible C L σ) := by
  unfold Feasible
  infer_instance

/-! ### Catalog entries and concrete decks used by the concrete theorems
(manabase.py lines 464-577 for the lands, 922-1087 for the constraints). -/

def Plains : Land := ⟨"Plains", "Basic Land - Plains", [.W], .basic, false⟩

def Island : Land := ⟨"Island", "Basic Land - Island", [.U], .basic, false⟩

def Swamp : Land := ⟨"Swamp", "Basic Land - Swamp", [.B], .basic, false⟩

def Mountain : Land := ⟨"Mountain", "Basic Land - Mountain", [.R], .basic, false⟩

def Forest : Land := ⟨"Forest", "Basic Land - Forest", [.G], .basic, false⟩

def MysticGate : Land := ⟨"Mystic Gate", "Land", [.W, .U, .C], .filter, false⟩

def RiverOfTears : Land := ⟨"River of Tears", "Land", [.U, .B], .river, false⟩

/-- `Constraint(ManaCost(W), 1)` (manabase.py line 953). -/
def BenevolentBodyguard : Constraint := ⟨⟨[.colored .W]⟩, 1⟩

/-- `card("U")` (manabase.py line 935): cost U, castable turn 1. -/
def AncestralVision : Constraint := ⟨⟨[.colored .U]⟩, 1⟩

/-- `card("B")` (manabase.py line 971). -/
def Duress : Constraint := ⟨⟨[.colored .B]⟩, 1⟩

/-- `card("R")` (manabase.py line 985). -/
def GrimLavamancer : Constraint := ⟨⟨[.colored .R]⟩, 1⟩

/-- `card("G")` (manabase.py line 978). -/
def BaskingRootwalla : Constraint := ⟨⟨[.colored .G]⟩, 1⟩

/-- `Constraint(ManaCost(W, W), 2)` (manabase.py line 955). -/
def SamuraiOfThePaleCurtain : Constraint := ⟨⟨[.colored .W, .colored .W]⟩, 2⟩

/-- `card("UU")` (manabase.py line 947): cost UU, castable turn 2. -/
def AcademyLoremaster : Constraint := ⟨⟨[.colored .U, .colored .U]⟩, 2⟩

/-- `card("RRB")` used in `test_frank` (manabase.py line 1129): cost RRB on turn 3. -/
def RRBConstraint : Constraint := ⟨⟨[.colored .R, .colored .R, .colored .B]⟩, 3⟩

/-- `Constraint(ManaCost(W, U, B, R, G), 5)` (manabase.py line 968). -/
def InvasionOfAlara : Constraint := ⟨⟨[.colored .W, .colored .U, .colored .B, .colored .R,
  .colored .G]⟩, 5⟩

/-- `mono_w_bodyguards` (manabase.py line 964). -/
def mono_w_bodyguards : Finset Constraint := {BenevolentBodyguard}

/-- The candidate lands used with `mono_w_bodyguards` in `test_solve`
(manabase.py line 1180). -/
def mono_w_lands : Finset Land := {Plains, Island, MysticGate}

/-- A five-color deck of one single-pip constraint per color. -/
def five_mono_deck : Finset Constraint :=
  {BenevolentBodyguard, AncestralVision, Duress, GrimLavamancer, BaskingRootwalla}

/-- The five basic lands. -/
def five_basics : Finset Land := {Plains, Island, Swamp, Mountain, Forest}

/-- `counter_weenie` (manabase.py line 1200): WW on 2 and UU on 2. -/
def counter_weenie : Finset Constraint := {SamuraiOfThePaleCurtain, AcademyLoremaster}

/-- A satisfying assignment for the model of `mono_w_bodyguards` over
`mono_w_lands` (whose viable lands are just `Plains`): 14 Plains. -/
def sigma_mono_w : Var → ℤ
  | .land l => if l = Plains then 14 else 0
  | .min_lands => 14
  | .mana_spend => 1
  | .max_mana_spend => 1
  | .total_lands => 14
  | .pain => 0
  | .objective => 866
  | .turnRes _ _ _ => 14
  | .turnTag _ tag => if tag = "can spend mana" ∨ tag = "max_mana_spend" ∨
      tag = "mana_spend" then 1 else 0
  | _ => 0

/-- A satisfying assignment for the model of `five_mono_deck` over
`five_basics`: 14 of each basic, 70 lands in total. -/
def sigma_five : Var → ℤ
  | .land _ => 14
  | .min_lands => 14
  | .mana_spend => 1
  | .max_mana_spend => 1
  | .total_lands => 70
  | .pain => 0
  | .objective => 306
  | .turnRes _ _ _ => 14
  | .turnTag _ tag => if tag = "can spend mana" ∨ tag = "max_mana_spend" ∨
      tag = "mana_spend" then 1 else 0
  | _ => 0

/-- A satisfying assignment for the model of `counter_weenie` over
`{Plains, Island, MysticGate}`: 13 Plains, 13 Islands and 4 Mystic Gates,
with the Gates filtering 8 of the 13 single-pip sources into double pips. -/
def sigma_cw : Var → ℤ
  | .land l => if l = Plains ∨ l = Island then 13 else if l = MysticGate then 4 else 0
  | .min_lands => 21
  | .mana_spend => 3
  | .max_mana_spend => 3
  | .total_lands => 30
  | .pain => 0
  | .objective => 718
  | .turnRes _ .untapped _ => 17
  | .turnRes _ (.res cc) role =>
    if role = "required" then (if cc = {Color.W} ∨ cc = {Color.U} then 13 else 21)
    else (if cc = {Color.W} ∨ cc = {Color.U} then 17 else 21)
  | .landTurnUntapped _ _ => 1
  | .landTurn _ _ => 4
  | .landCons _ _ => 0
  | .landConsTag _ c tag =>
    if tag = "can make colored mana" then 1
    else if c = SamuraiOfThePaleCurtain then
      (if tag = "WW" then 8 else if tag = "W consumed" then 4 else 0)
    else
      (if tag = "UU" then 8 else if tag = "U consumed" then 4 else 0)
  | .turnTag t tag => if tag = "can spend mana" then 1 else (t : ℤ)
  | _ => 0

/-! ### Helper lemmas -/

/-- `Feasible` unfolded into its conjuncts. -/
theorem feasible_destruct {C : Finset Constraint} {L : Finset Land} {σ : Var → ℤ}
    (h : Feasible C L σ) :
    C.Nonempty ∧
    init_bounds (possible_lands C L) σ ∧
    (∀ c ∈ C,
      (∀ l ∈ possible_lands C L, add_to_model_prop (possible_lands C L) l c σ) ∧
      frank_req_prop c σ ∧
      untapped_section_prop (possible_lands C L) c σ ∧
      sources_sum_prop (possible_lands C L) c σ) ∧
    lands_prop C (possible_lands C L) σ ∧
    mana_spend_prop C (possible_lands C L) σ ∧
    pain_prop (possible_lands C L) σ ∧
    colored_sources_prop C σ ∧
    objective_prop σ :=
  h

/-- Splitting a successful `frank` into its failure test and graph. -/
theorem frank_eq_ok {c : Constraint} {d : ℕ} {g : Finset (ColorCombination × ℕ)}
    (h : frank c d = .ok g) :
    ¬frankFails c d ∧
      g = c.color_combinations.image (fun cc => (cc, table_req cc.card c.turn d)) := by
  by_cases hf : frankFails c d
  · rw [frank, if_pos hf] at h
    exact absurd h (by simp)
  · rw [frank, if_neg hf] at h
    exact ⟨hf, (Except.ok.inj h).symm⟩

/-- The contribution of a `Basic` land. -/
theorem contribution_basic (l : Land) (c : Constraint) (cc : ColorCombination) (σ : Var → ℤ)
    (hk : l.kind = .basic) (hcc : cc ∈ c.color_combinations) :
    contribution l c cc σ = some (if l.can_produce_any cc then σ (.land l) else 0) := by
  unfold contribution
  rw [if_neg (by simp [hcc]), if_neg (by simp [hk]), if_neg (by simp [hk]),
    if_neg (by simp [hk]), if_neg (by simp [hk])]

/-- Sums over the five basic lands, expanded. -/
theorem five_basics_sum (f : Land → ℤ) :
    five_basics.sum f = f Plains + f Island + f Swamp + f Mountain + f Forest := by
  unfold five_basics
  rw [Finset.sum_insert (by decide), Finset.sum_insert (by decide),
    Finset.sum_insert (by decide), Finset.sum_insert (by decide), Finset.sum_singleton]
  ring

/-- Contribution sums over the five basic lands, expanded. -/
theorem contrib_sum_five_eval (c : Constraint) (cc : ColorCombination)
    (hcc : cc ∈ c.color_combinations) (σ : Var → ℤ) :
    contrib_sum five_basics c cc σ =
      (if Plains.can_produce_any cc then σ (.land Plains) else 0) +
      (if Island.can_produce_any cc then σ (.land Island) else 0) +
      (if Swamp.can_produce_any cc then σ (.land Swamp) else 0) +
      (if Mountain.can_produce_any cc then σ (.land Mountain) else 0) +
      (if Forest.can_produce_any cc then σ (.land Forest) else 0) := by
  unfold contrib_sum
  rw [five_basics_sum]
  rw [contribution_basic Plains c cc σ rfl hcc, contribution_basic Island c cc σ rfl hcc,
    contribution_basic Swamp c cc σ rfl hcc, contribution_basic Mountain c cc σ rfl hcc,
    contribution_basic Forest c cc σ rfl hcc]
  rfl

/-! ### Claim theorems -/

/-- C1 (confirmed).  Source sufficiency: in every feasible assignment of the
model `define_model` builds (hence in every solution of a solve), for every
constraint `c` and every color combination `cc` in `c`'s color requirement
set with Frank requirement `r`, the value of `sources[c.turn, cc]` is at
least `r` (manabase.py lines 724-730; `define_model` uses `frank`'s default
deck size 60). -/
theorem source_sufficiency {C : Finset Constraint} {L : Finset Land} {σ : Var → ℤ}
    (h : Feasible C L σ) {c : Constraint} (hc : c ∈ C)
    {g : Finset (ColorCombination × ℕ)} (hg : frank c 60 = .ok g)
    {cc : ColorCombination} {r : ℕ} (hr : (cc, r) ∈ g) :
    (r : ℤ) ≤ σ (.turnRes c.turn (.res cc) "sources") := by
  have hfr : frank_req_prop c σ := ((feasible_destruct h).2.2.1 c hc).2.1
  obtain ⟨-, hgr⟩ := frank_eq_ok hg
  rw [hgr] at hr
  obtain ⟨cc', hcc', heq⟩ := Finset.mem_image.mp hr
  obtain ⟨h1, h2⟩ := Prod.mk.injEq .. ▸ heq
  subst h1
  subst h2
  exact (hfr.2 cc' hcc').2.2.2

/-- Witness for C1 at the mono-white deck of `test_solve`: the assignment
`sigma_mono_w` is feasible and its `sources[1, {W}]` value 14 meets the
Frank requirement 14. -/
theorem source_sufficiency_witness :
    (14 : ℤ) ≤ sigma_mono_w (.turnRes 1 (.res {Color.W}) "sources") :=
  @source_sufficiency mono_w_bodyguards mono_w_lands sigma_mono_w (by decide)
    BenevolentBodyguard (by decide) {({Color.W}, 14)}
    (by
      unfold frank
      rw [if_neg (by decide)]
      exact congrArg Except.ok (by decide))
    {Color.W} 14 (by decide)

/-- C3 (confirmed).  Frank table spot-checks: `frank({U}@1, 60)` is exactly
`{{U} ↦ 14}` and `frank(RRB@3, 60)` is exactly
`{{R} ↦ 12, {B} ↦ 12, {RR} ↦ 18, {RB} ↦ 18, {RRB} ↦ 23}`
(manabase.py lines 881-911, tested at lines 1122-1136). -/
theorem frank_spot_checks :
    frank AncestralVision 60 = .ok {({Color.U}, 14)} ∧
    frank RRBConstraint 60 =
      .ok {({Color.R}, 12), ({Color.B}, 12), ({Color.R, Color.R}, 18),
        ({Color.R, Color.B}, 18), ({Color.R, Color.R, Color.B}, 23)} := by
  constructor
  · unfold frank
    rw [if_neg (by decide)]
    exact congrArg Except.ok (by decide)
  · unfold frank
    rw [if_neg (by decide)]
    exact congrArg Except.ok (by decide)

/-- C6 (confirmed).  The color requirement set of a constraint is exactly the
set of non-empty sub-multisets of its colored pips, and for RRB it is the five
combinations `{R}, {B}, {RR}, {RB}, {RRB}` (manabase.py lines 99-100 and
834-836). -/
theorem color_combinations_spec :
    (∀ (c : Constraint) (cc : ColorCombination),
      cc ∈ c.color_combinations ↔
        cc ≤ (c.required.colored_pips : Multiset Color) ∧ cc ≠ 0) ∧
    RRBConstraint.color_combinations =
      {{Color.R}, {Color.B}, {Color.R, Color.R}, {Color.R, Color.B},
        {Color.R, Color.R, Color.B}} := by
  constructor
  · intro c cc
    unfold Constraint.color_combinations find_color_combinations
    rw [Finset.mem_erase, Multiset.mem_toFinset, Multiset.mem_powerset]
    exact ⟨fun ⟨a, b⟩ => ⟨b, a⟩, fun ⟨a, b⟩ => ⟨b, a⟩⟩
  · decide

/-- C2 counterexample.  The claim `total_lands ≤ deck_size` is false: with one
single-pip constraint per color over the five basics, every feasible
assignment (hence every solution the solver can return) needs 14 sources of
each color, forcing at least 70 > 60 lands, and feasible assignments exist.
`define_model` never constrains `total_lands` by the deck size; only the
variable bound `MAX_DECK_SIZE = 100` applies (manabase.py lines 130, 767-771). -/
theorem total_lands_exceeds_deck_size :
    (∃ σ, Feasible five_mono_deck five_basics σ) ∧
    (∀ σ, Feasible five_mono_deck five_basics σ → 60 < σ Var.total_lands) := by
  refine ⟨⟨sigma_five, by decide⟩, fun σ h => ?_⟩
  have hd := feasible_destruct h
  have hP : possible_lands five_mono_deck five_basics = five_basics := by decide
  have keyW : (14 : ℤ) ≤ σ (.land Plains) := by
    have hW := hd.2.2.1 BenevolentBodyguard (by decide)
    have hge := (hW.2.1.2 {Color.W} (by decide)).2.2.2
    have hsum := hW.2.2.2 {Color.W} (by decide)
    rw [hP] at hsum
    rw [contrib_sum_five_eval _ _ (by decide)] at hsum
    rw [if_pos (by decide), if_neg (by decide), if_neg (by decide), if_neg (by decide),
      if_neg (by decide)] at hsum
    rw [show table_req (({Color.W} : ColorCombination)).card BenevolentBodyguard.turn 60 = 14
      from by decide] at hge
    rw [hsum] at hge
    simpa using hge
  have keyU : (14 : ℤ) ≤ σ (.land Island) := by
    have hU := hd.2.2.1 AncestralVision (by decide)
    have hge := (hU.2.1.2 {Color.U} (by decide)).2.2.2
    have hsum := hU.2.2.2 {Color.U} (by decide)
    rw [hP] at hsum
    rw [contrib_sum_five_eval _ _ (by decide)] at hsum
    rw [if_neg (by decide), if_pos (by decide), if_neg (by decide), if_neg (by decide),
      if_neg (by decide)] at hsum
    rw [show table_req (({Color.U} : ColorCombination)).card AncestralVision.turn 60 = 14
      from by decide] at hge
    rw [hsum] at hge
    simpa using hge
  have keyB : (14 : ℤ) ≤ σ (.land Swamp) := by
    have hB := hd.2.2.1 Duress (by decide)
    have hge := (hB.2.1.2 {Color.B} (by decide)).2.2.2
    have hsum := hB.2.2.2 {Color.B} (by decide)
    rw [hP] at hsum
    rw [contrib_sum_five_eval _ _ (by decide)] at hsum
    rw [if_neg (by decide), if_neg (by decide), if_pos (by decide), if_neg (by decide),
      if_neg (by decide)] at hsum
    rw [show table_req (({Color.B} : ColorCombination)).card Duress.turn 60 = 14
      from by decide] at hge
    rw [hsum] at hge
    simpa using hge
  have keyR : (14 : ℤ) ≤ σ (.land Mountain) := by
    have hR := hd.2.2.1 GrimLavamancer (by decide)
    have hge := (hR.2.1.2 {Color.R} (by decide)).2.2.2
    have hsum := hR.2.2.2 {Color.R} (by decide)
    rw [hP] at hsum
    rw [contrib_sum_five_eval _ _ (by decide)] at hsum
    rw [if_neg (by decide), if_neg (by decide), if_neg (by decide), if_pos (by decide),
      if_neg (by decide)] at hsum
    rw [show table_req (({Color.R} : ColorCombination)).card GrimLavamancer.turn 60 = 14
      from by decide] at hge
    rw [hsum] at hge
    simpa using hge
  have keyG : (14 : ℤ) ≤ σ (.land Forest) := by
    have hG := hd.2.2.1 BaskingRootwalla (by decide)
    have hge := (hG.2.1.2 {Color.G} (by decide)).2.2.2
    have hsum := hG.2.2.2 {Color.G} (by decide)
    rw [hP] at hsum
    rw [contrib_sum_five_eval _ _ (by decide)] at hsum
    rw [if_neg (by decide), if_neg (by decide), if_neg (by decide), if_neg (by decide),
      if_pos (by decide)] at hsum
    rw [show table_req (({Color.G} : ColorCombination)).card BaskingRootwalla.turn 60 = 14
      from by decide] at hge
    rw [hsum] at hge
    simpa using hge
  have hTot := hd.2.2.2.1.2.1
  rw [hP, five_basics_sum] at hTot
  rw [hTot]
  linarith

/-- C2 (corrected).  Total lands bound as the code enforces it: in every
feasible assignment, `total_lands` equals the sum of the chosen land counts,
`min_lands` equals the maximum over constraints of `num_lands_required`, and
`min_lands ≤ total_lands ≤ 100` where 100 is `MAX_DECK_SIZE` (the variable
bound at manabase.py line 130) — the deck size 60 is never imposed. -/
theorem total_lands_bounds {C : Finset Constraint} {L : Finset Land} {σ : Var → ℤ}
    (h : Feasible C L σ) :
    σ Var.min_lands ≤ σ Var.total_lands ∧
    σ Var.total_lands ≤ 100 ∧
    σ Var.total_lands = (possible_lands C L).sum (fun l => σ (.land l)) ∧
    σ Var.min_lands = ((C.sup num_lands_required : ℕ) : ℤ) := by
  have hd := feasible_destruct h
  exact ⟨hd.2.2.2.1.2.2, hd.2.1.2.2.2.2.1.2, hd.2.2.2.1.2.1, hd.2.2.2.1.1⟩

/-- Witness for C2's amended bound at the mono-white deck. -/
theorem total_lands_bounds_witness :
    sigma_mono_w Var.min_lands ≤ sigma_mono_w Var.total_lands ∧
    sigma_mono_w Var.total_lands ≤ 100 :=
  ⟨(@total_lands_bounds mono_w_bodyguards mono_w_lands sigma_mono_w (by decide)).1,
   (@total_lands_bounds mono_w_bodyguards mono_w_lands sigma_mono_w (by decide)).2.1⟩

/-- C4 counterexample.  `define_model` does leak `UnsatisfiableConstraint`:
for the five-pip constraint `WUBRG@5` (`InvasionOfAlara`), the unguarded
`frank` call at manabase.py line 725 raises, and the exception propagates out
of `define_model` — there is no handler between `frank` and `solve`'s caller. -/
theorem define_model_leaks_unsat :
    define_model_frank {InvasionOfAlara} = .error () ∧
    frank InvasionOfAlara 60 = .error () := by
  constructor
  · unfold define_model_frank
    rw [if_pos (by decide)]
  · unfold frank
    rw [if_pos (by decide)]

/-- C4 (corrected).  What the code actually does with `UnsatisfiableConstraint`:
a set of constraints containing one outside the Frank table makes model
construction fail (no feasible model exists and the error propagates), while
the helpers `need_untapped` and `num_lands` do catch the exception internally
and substitute the fallbacks (the turn-6 untapped count 9, and the (4,4)
entry 24) — manabase.py lines 721-730, 865-870, 914-919. -/
theorem unsat_catch_and_fallback :
    (∀ C : Finset Constraint, any_frank_fails C → define_model_frank C = .error ()) ∧
    (∀ (C : Finset Constraint) (L : Finset Land) (σ : Var → ℤ),
      Feasible C L σ → ∀ c ∈ C, ¬frankFails c 60) ∧
    (∀ t : ℕ, table_req 1 t 60 = 0 → need_untapped t = 9) ∧
    (∀ mv t : ℕ, num_lands_fails mv t → num_lands mv t = 24) := by
  refine ⟨fun C hC => ?_, fun C L σ h c hc => ?_, fun t ht => ?_, fun mv t hmt => ?_⟩
  · unfold define_model_frank
    rw [if_pos hC]
  · exact ((feasible_destruct h).2.2.1 c hc).2.1.1
  · unfold need_untapped
    rw [if_pos ht]
    decide
  · unfold num_lands
    rw [if_pos hmt]
    decide

/-- Witness for C4's amended behavior: the leak at `InvasionOfAlara` and the
helpers' fallbacks at out-of-table arguments. -/
theorem unsat_catch_and_fallback_witness :
    define_model_frank {InvasionOfAlara} = .error () ∧
    need_untapped 8 = 9 ∧
    num_lands 5 3 = 24 :=
  ⟨unsat_catch_and_fallback.1 {InvasionOfAlara} (by decide),
   unsat_catch_and_fallback.2.2.1 8 (by decide),
   unsat_catch_and_fallback.2.2.2 5 3 (by decide)⟩

/-- C5 (confirmed).  The objective equation of the model: in every feasible
assignment `objective = 1000 + 6·mana_spend − 10·total_lands − 2·pain +
total_colored_sources` (manabase.py line 826), and a solution of `solve`
maximizes the objective over all feasible assignments (line 827). -/
theorem objective_formula :
    (∀ (C : Finset Constraint) (L : Finset Land) (σ : Var → ℤ), Feasible C L σ →
      σ Var.objective = 1000 + σ Var.mana_spend * 6 - σ Var.total_lands * 10 -
        σ Var.pain * 2 + σ Var.total_colored_sources) ∧
    (∀ (C : Finset Constraint) (L : Finset Land) (σ : Var → ℤ), IsSolution C L σ →
      Feasible C L σ ∧ ∀ τ, Feasible C L τ → τ Var.objective ≤ σ Var.objective) :=
  ⟨fun _ _ _ h => (feasible_destruct h).2.2.2.2.2.2.2, fun _ _ _ h => h⟩

/-- Witness for C5 at the mono-white deck: `866 = 1000 + 6·1 − 10·14 − 0 + 0`. -/
theorem objective_formula_witness :
    sigma_mono_w Var.objective = 1000 + sigma_mono_w Var.mana_spend * 6 -
      sigma_mono_w Var.total_lands * 10 - sigma_mono_w Var.pain * 2 +
      sigma_mono_w Var.total_colored_sources :=
  objective_formula.1 mono_w_bodyguards mono_w_lands sigma_mono_w (by decide)

/-- C7 (confirmed).  Filter conservation: for every Filter land in the model
and every constraint on turn ≥ 2 requesting one of its colors, every feasible
assignment satisfies `mm + mn + nn = 2·(m_consumed + n_consumed)` and
`mm + mn + nn − m_consumed − n_consumed = count[L]`, and `mm`, `mn`, `nn` are
all 0 whenever the `active` boolean is false (manabase.py lines 352-391). -/
theorem filter_conservation {C : Finset Constraint} {L : Finset Land} {σ : Var → ℤ}
    (h : Feasible C L σ) {l : Land} (hl : l ∈ possible_lands C L) (hk : l.kind = .filter)
    {c : Constraint} (hc : c ∈ C) (ht : 2 ≤ c.turn)
    (hreq : ∃ cc ∈ c.color_combinations, l.can_produce_any cc) :
    σ (.landConsTag l c (tag_mm l)) + σ (.landConsTag l c (tag_mn l)) +
        σ (.landConsTag l c (tag_nn l)) =
      2 * (σ (.landConsTag l c (tag_m_consumed l)) + σ (.landConsTag l c (tag_n_consumed l))) ∧
    σ (.landConsTag l c (tag_mm l)) + σ (.landConsTag l c (tag_mn l)) +
        σ (.landConsTag l c (tag_nn l)) -
        σ (.landConsTag l c (tag_m_consumed l)) - σ (.landConsTag l c (tag_n_consumed l)) =
      σ (.land l) ∧
    (σ (.landConsTag l c "can make colored mana") = 0 →
      σ (.landConsTag l c (tag_mm l)) = 0 ∧ σ (.landConsTag l c (tag_mn l)) = 0 ∧
        σ (.landConsTag l c (tag_nn l)) = 0) := by
  have hadd := ((feasible_destruct h).2.2.1 c hc).1 l hl hk
  have hne : ¬filter_ejects l c := by
    rintro (h1 | h2)
    · omega
    · exact h2 hreq
  obtain ⟨-, -, -, -, -, -, -, -, -, -, -, -, h13, h14, -, -, -, h18, h19, h20⟩ :=
    hadd.2 hne
  exact ⟨by linarith, h14, fun ha => ⟨h18 ha, h19 ha, h20 ha⟩⟩

/-- Witness for C7 at the counter-weenie deck (`WW@2`, `UU@2` over Plains,
Island, Mystic Gate): the Gate's auxiliary variables for the WW constraint
satisfy `8 + 0 + 0 = 2·(4 + 0)` and `8 − 4 − 0 = 4 = count[Mystic Gate]`. -/
theorem filter_conservation_witness :
    sigma_cw (.landConsTag MysticGate SamuraiOfThePaleCurtain (tag_mm MysticGate)) +
        sigma_cw (.landConsTag MysticGate SamuraiOfThePaleCurtain (tag_mn MysticGate)) +
        sigma_cw (.landConsTag MysticGate SamuraiOfThePaleCurtain (tag_nn MysticGate)) =
      2 * (sigma_cw (.landConsTag MysticGate SamuraiOfThePaleCurtain
            (tag_m_consumed MysticGate)) +
          sigma_cw (.landConsTag MysticGate SamuraiOfThePaleCurtain
            (tag_n_consumed MysticGate))) ∧
    sigma_cw (.landConsTag MysticGate SamuraiOfThePaleCurtain (tag_mm MysticGate)) +
        sigma_cw (.landConsTag MysticGate SamuraiOfThePaleCurtain (tag_mn MysticGate)) +
        sigma_cw (.landConsTag MysticGate SamuraiOfThePaleCurtain (tag_nn MysticGate)) -
        sigma_cw (.landConsTag MysticGate SamuraiOfThePaleCurtain
          (tag_m_consumed MysticGate)) -
        sigma_cw (.landConsTag MysticGate SamuraiOfThePaleCurtain
          (tag_n_consumed MysticGate)) =
      sigma_cw (.land MysticGate) ∧
    (sigma_cw (.landConsTag MysticGate SamuraiOfThePaleCurtain "can make colored mana") = 0 →
      sigma_cw (.landConsTag MysticGate SamuraiOfThePaleCurtain (tag_mm MysticGate)) = 0 ∧
        sigma_cw (.landConsTag MysticGate SamuraiOfThePaleCurtain (tag_mn MysticGate)) = 0 ∧
        sigma_cw (.landConsTag MysticGate SamuraiOfThePaleCurtain (tag_nn MysticGate)) = 0) :=
  @filter_conservation counter_weenie mono_w_lands sigma_cw (by decide)
    MysticGate (by decide) rfl SamuraiOfThePaleCurtain (by decide) (by decide) (by decide)

/-- C8 counterexample.  `num_lands(2, 7)` does not return the Frank table's
`(2, 7)` entry 12 even though `turn ≤ 7` and `mana_value ≤ 4`: `frank` also
needs the `(1, 7)` entry, which does not exist, so the call falls back to the
`(4, 4)` entry 24 (manabase.py lines 882-919). -/
theorem num_lands_fallback_in_range :
    num_lands 2 7 = 24 ∧ table_req 2 7 60 = 12 := by
  decide

/-- C8 (corrected).  `num_lands(mv, turn)` equals the `(mv, turn)` table
entry at deck size 60 exactly when every pip count `1..mv` has a table entry
for that turn; otherwise (and not merely when `turn > 7` or `mv > 4`) it
falls back to the `(4, 4)` entry 24 (manabase.py lines 914-919). -/
theorem num_lands_characterization (mv t : ℕ) (_hmv : 1 ≤ mv) :
    ((∀ k, 1 ≤ k → k ≤ mv → table_req k t 60 ≠ 0) → num_lands mv t = table_req mv t 60) ∧
    ((∃ k, 1 ≤ k ∧ k ≤ mv ∧ table_req k t 60 = 0) → num_lands mv t = 24) := by
  constructor
  · intro hall
    have hnf : ¬num_lands_fails mv t := by
      rintro ⟨k, hk, hz⟩
      exact hall k (Finset.mem_Icc.mp hk).1 (Finset.mem_Icc.mp hk).2 hz
    unfold num_lands
    rw [if_neg hnf]
  · rintro ⟨k, hk1, hk2, hz⟩
    have hf : num_lands_fails mv t := ⟨k, Finset.mem_Icc.mpr ⟨hk1, hk2⟩, hz⟩
    unfold num_lands
    rw [if_pos hf]
    decide

/-- Witness for C8's amended characterization: `num_lands(3, 4)` hits the
table (`21`), `num_lands(1, 7)` falls back (`24`) because `(1, 7)` is not in
the table although `turn ≤ 7` and `mv ≤ 4`. -/
theorem num_lands_characterization_witness :
    num_lands 3 4 = 21 ∧ num_lands 1 7 = 24 :=
  ⟨((num_lands_characterization 3 4 (by decide)).1 (by
      intro k h1 h2
      interval_cases k <;> decide)).trans (by decide),
   (num_lands_characterization 1 7 (by decide)).2 ⟨1, by decide, by decide, by decide⟩⟩

/-- C9 counterexample.  `RiverOfTearsLand.add_to_model` does not return an
entry for every color combination of the constraint: for the mono-white
constraint `W@1`, the combination `{W}` is in the color requirement set but
the returned dict has no key for it (manabase.py lines 440-445 only add keys
containing U or B). -/
theorem river_contribution_missing :
    ({Color.W} : ColorCombination) ∈ BenevolentBodyguard.color_combinations ∧
    (contribution RiverOfTears BenevolentBodyguard {Color.W} (fun _ => 0)).isSome = false := by
  decide

/-- C9 (corrected).  `add_to_model` totality holds for every land kind except
`Filter` and `RiverOfTearsLand`: those kinds' maps omit combinations
(RiverOfTears keeps exactly the combinations containing U or B; `Filter`'s
if/elif chain has no else).  For all other kinds the returned map has an
entry (an expression or 0) for every combination in the constraint's color
requirement set. -/
theorem add_to_model_totality :
    (∀ (l : Land) (c : Constraint) (cc : ColorCombination) (σ : Var → ℤ),
      ¬l.kind = .filter → ¬l.kind = .river → cc ∈ c.color_combinations →
      (contribution l c cc σ).isSome = true) ∧
    (∀ (l : Land) (c : Constraint) (cc : ColorCombination) (σ : Var → ℤ),
      l.kind = .river → cc ∈ c.color_combinations →
      ((contribution l c cc σ).isSome = true ↔ (Color.U ∈ cc ∨ Color.B ∈ cc))) := by
  constructor
  · intro l c cc σ hf hr hcc
    unfold contribution
    rw [if_neg (by simp [hcc]), if_neg hr]
    by_cases h2 : l.kind = .tapland ∨ l.kind = .bicycle
    · rw [if_pos h2]
      simp
    · rw [if_neg h2]
      by_cases h3 : l.kind = .tango
      · rw [if_pos h3]
        split_ifs <;> simp
      · rw [if_neg h3, if_neg hf]
        simp
  · intro l c cc σ hr hcc
    unfold contribution
    rw [if_neg (by simp [hcc]), if_pos hr]
    split_ifs with h
    · simp [h]
    · simp [h]

/-- Witness for C9's amended totality: a Basic has an entry for `{W}` of
`W@1`, and River of Tears has an entry for `{B}` of `B@1` since it contains
B. -/
theorem add_to_model_totality_witness :
    (contribution Plains BenevolentBodyguard {Color.W} (fun _ => 0)).isSome = true ∧
    ((contribution RiverOfTears Duress {Color.B} (fun _ => 0)).isSome = true ↔
      (Color.U ∈ ({Color.B} : ColorCombination) ∨ Color.B ∈ ({Color.B} : ColorCombination))) :=
  ⟨add_to_model_totality.1 Plains BenevolentBodyguard {Color.W} (fun _ => 0)
      (by decide) (by decide) (by decide),
   add_to_model_totality.2 RiverOfTears Duress {Color.B} (fun _ => 0) rfl (by decide)⟩

/-- C10 (confirmed).  `ManaCost` equality and strict ordering are determined
solely by `mana_value`, not by the pip sequence: `ManaCost(W, W)` and
`ManaCost(1, U)` compare equal despite different pips (manabase.py lines
77-85). -/
theorem manacost_compares_by_mana_value :
    (∀ a b : ManaCost, ManaCost.eq_py a b = true ↔ a.mana_value = b.mana_value) ∧
    (∀ a b : ManaCost, ManaCost.lt_py a b = true ↔ a.mana_value < b.mana_value) ∧
    ManaCost.eq_py ⟨[.colored .W, .colored .W]⟩ ⟨[.generic 1, .colored .U]⟩ = true ∧
    (⟨[.colored .W, .colored .W]⟩ : ManaCost) ≠ (⟨[.generic 1, .colored .U]⟩ : ManaCost) := by
  refine ⟨fun a b => ?_, fun a b => ?_, by decide, by decide⟩
  · unfold ManaCost.eq_py
    exact beq_iff_eq
  · unfold ManaCost.lt_py
    exact decide_eq_true_iff

end Manabase
